import Mathlib

/-!
Shallow embedding of the conversation-orchestration core of the Arabic
Real-Estate sales agent (files `agent.py` and `property_database.py`):
the Fact Extractor (`_basic_info_extraction`), the Reference Resolver
(`_is_reference_to_previous_property`), the Rule Engine
(`_apply_rule_logic`), the Catalog Matcher (`RealEstateListings.search`)
and the phase renderers (`_discovery_response`, `_summary_response`,
`_suggest_properties`).  Python strings are modelled as Lean `String`
(lists of characters), Python dict-based slot stores as a record of
`Option` fields (`none` = key absent), and mutation as explicit state
passing.  The regex character class `\d` is modelled as ASCII decimal
digits and `\s` as `Char.isWhitespace`; all messages in the repository's
vocabulary use only ASCII digits and spaces, where the two coincide.
-/

namespace RealEstate

/-- Python `needle in haystack` on strings: substring containment. -/
def containsSub (needle : List Char) : List Char → Bool
  | [] => needle.isEmpty
  | c :: rest => needle.isPrefixOf (c :: rest) || containsSub needle rest

/-- Python `str.lower()`, character by character (ASCII case folding;
Arabic text is unaffected by case folding in both languages). -/
def lowerString (s : String) : String := String.mk (s.data.map Char.toLower)

/-- One inventory item, the columns used by `agent.py` /
`property_database.py` (`type, location, price, bedrooms, features`).
`price`/`bedrooms` are `none` when the cell is not numeric
(pandas `to_numeric(errors='coerce')` yields NaN there). -/
structure PropRecord where
  type : String
  location : String
  price : Option Int
  bedrooms : Option Int
  features : String
deriving DecidableEq, Repr

/-- Value stored in `user_info["refers_to"]`: either the last-mentioned
property record or the literal sentinel string `"غير واضح"`. -/
inductive RefersTo where
  | prop (p : PropRecord)
  | unresolved
deriving DecidableEq, Repr

/-- The slot store `self.user_info`: a field is `none` when the dict key
is absent and `some v` when the key is present with value `v`. -/
structure UserInfo where
  location : Option String
  budget : Option String
  property_type : Option String
  refers_to : Option RefersTo
  features : Option (List String)
deriving DecidableEq, Repr

/-- The slot store of a fresh conversation (`self.user_info = {}`). -/
def emptyInfo : UserInfo :=
  { location := none, budget := none, property_type := none
    refers_to := none, features := none }

/-- The fixed gazetteer of area names from `_basic_info_extraction`. -/
def locations : List String :=
  ["القاهرة", "الاسكندرية", "الجيزة", "المعادي", "مدينة نصر", "6 أكتوبر", "التجمع",
   "الشروق", "العبور", "الرحاب", "مدينتي", "الشيخ زايد", "المهندسين", "الدقي",
   "الزمالك", "وسط البلد", "مصر الجديدة", "حلوان"]

/-- The `for location in locations` loop body: first gazetteer entry that
is a substring of the message. -/
def findLocation : List String → String → Option String
  | [], _ => none
  | l :: ls, msg =>
    if containsSub l.data msg.data then some l else findLocation ls msg

/-- Location part of `_basic_info_extraction`: sets `location` to the
first matching gazetteer entry only when the key is not already present. -/
def extractLocation (msg : String) (u : UserInfo) : UserInfo :=
  if u.location.isSome then u
  else
    match findLocation locations msg with
    | some l => { u with location := some l }
    | none => u

/-- Models `re.search(r'(\d[\d,]*)\s*(جنيه|الف|مليون|k|m)', message)`.
Scans start positions left to right; at a digit it consumes the maximal
run of digits/commas, then the maximal whitespace run, then tries the
unit alternatives in order.  (No backtracking is needed: no unit token
begins with a digit, a comma or whitespace, so the greedy run is exact.)
Returns the two capture groups (amount, unit). -/
def budgetSearch : List Char → Option (List Char × List Char)
  | [] => none
  | c :: rest =>
    if c.isDigit then
      let run := rest.takeWhile (fun x => x.isDigit || x == ',')
      let afterRun := rest.dropWhile (fun x => x.isDigit || x == ',')
      let afterWs := afterRun.dropWhile Char.isWhitespace
      match ["جنيه".data, "الف".data, "مليون".data, "k".data, "m".data].find?
          (fun unit => unit.isPrefixOf afterWs) with
      | some unit => some (c :: run, unit)
      | none => budgetSearch rest
    else budgetSearch rest

/-- The unit → display-label mapping of `_basic_info_extraction`:
`'ألف جنيه' if unit in ['k','الف'] else 'مليون جنيه' if unit in
['m','مليون'] else 'جنيه'`. -/
def unitLabel (unit : List Char) : String :=
  if unit = "k".data ∨ unit = "الف".data then "ألف جنيه"
  else if unit = "m".data ∨ unit = "مليون".data then "مليون جنيه"
  else "جنيه"

/-- The stored budget string: thousands separators stripped from the
amount, a space, then the display label. -/
def budgetValue (amount unit : List Char) : String :=
  String.mk (amount.filter (fun c => c != ',')) ++ " " ++ unitLabel unit

/-- Budget part of `_basic_info_extraction`: first regex match, stored
only when the `budget` key is not already present. -/
def extractBudget (msg : String) (u : UserInfo) : UserInfo :=
  match budgetSearch msg.data with
  | some (amount, unit) =>
    if u.budget.isSome then u
    else { u with budget := some (budgetValue amount unit) }
  | none => u

/-- The synonym table `property_types` of `_basic_info_extraction`,
canonical type → keyword variants, in declaration order. -/
def property_types : List (String × List String) :=
  [("شقة", ["شقة", "شقه", "apartment"]),
   ("فيلا", ["فيلا", "فيلات", "villa"]),
   ("دوبلكس", ["دوبلكس", "duplex"]),
   ("ستوديو", ["ستوديو", "studio"]),
   ("محل", ["محل", "محلات", "shop"]),
   ("مكتب", ["مكتب", "مكاتب", "office"])]

/-- The nested `for prop_type, keywords` loop: first canonical type with
any keyword occurring in the lower-cased message. -/
def findPropertyType : List (String × List String) → String → Option String
  | [], _ => none
  | (t, kws) :: rest, lowerMsg =>
    if kws.any (fun k => containsSub k.data lowerMsg.data) then some t
    else findPropertyType rest lowerMsg

/-- Property-type part of `_basic_info_extraction`: scans the lower-cased
message, sets the slot only when the key is not already present. -/
def extractPropertyType (msg : String) (u : UserInfo) : UserInfo :=
  if u.property_type.isSome then u
  else
    match findPropertyType property_types (lowerString msg) with
    | some t => { u with property_type := some t }
    | none => u

/-- Models `_basic_info_extraction(message)`: location, then budget, then
property type, each first-writer-wins. -/
def basicInfoExtraction (msg : String) (u : UserInfo) : UserInfo :=
  extractPropertyType msg (extractBudget msg (extractLocation msg u))

/-- The closed set of vague anaphoric words of
`_is_reference_to_previous_property`. -/
def vague_words : List String := ["هي", "ده", "دي", "العقار ده", "العرض ده"]

/-- The negative-sentiment alternatives of the per-pronoun pattern
`(مش|ما عجبني|ما عجباني|ما عجبها|ما حبيتها)`. -/
def negative_phrases : List (List Char) :=
  ["مش".data, "ما عجبني".data, "ما عجباني".data, "ما عجبها".data, "ما حبيتها".data]

/-- Matches the regex fragment `.*(alt₁|...|altₙ)` against some prefix of
the input: either an alternative starts here, or one character other
than a newline (`.` does not match `\n`) is consumed as gap. -/
def gapPhrase (phrases : List (List Char)) : List Char → Bool
  | [] => phrases.any (fun p => p.isEmpty)
  | c :: rest =>
    phrases.any (fun p => p.isPrefixOf (c :: rest)) ||
      (c != '\n' && gapPhrase phrases rest)

/-- Models `re.search(word + '.*(' + alternatives + ')', text)`: some start
position carries the literal word followed by a gap and an alternative. -/
def wordThenNeg (word : List Char) (phrases : List (List Char)) : List Char → Bool
  | [] => false
  | c :: rest =>
    (word.isPrefixOf (c :: rest) && gapPhrase phrases ((c :: rest).drop word.length)) ||
      wordThenNeg word phrases rest

/-- Models `_is_reference_to_previous_property(message)`: any vague word
followed later in the lower-cased message by a negative phrase. -/
def isReferenceToPrevious (msg : String) : Bool :=
  vague_words.any (fun w => wordThenNeg w.data negative_phrases (lowerString msg).data)

/-- Models `self.last_mentioned_property or "غير واضح"` (a property record
produced by the catalog is a non-empty dict, hence truthy). -/
def resolveReference (last : Option PropRecord) : RefersTo :=
  match last with
  | some p => RefersTo.prop p
  | none => RefersTo.unresolved

/-- The reference-handling step of `process_message`: when the resolver
fires, `user_info["refers_to"]` is assigned; otherwise nothing changes. -/
def applyReference (msg : String) (last : Option PropRecord) (u : UserInfo) : UserInfo :=
  if isReferenceToPrevious msg then
    { u with refers_to := some (resolveReference last) }
  else u

/-- One `budget_advice` rule: `{"condition": ..., "response": ...}`. -/
structure BudgetRule where
  condition : String
  response : String
deriving DecidableEq, Repr

/-- One `property_priority` rule: `{"feature": ..., "response": ...}`. -/
structure FeatureRule where
  feature : String
  response : String
deriving DecidableEq, Repr

/-- The rule table loaded from `rules.json` (empty when the file is
missing). -/
structure Rules where
  budget_advice : List BudgetRule
  property_priority : List FeatureRule
deriving DecidableEq, Repr

/-- Digit-string to number, as Python `int` on a run of decimal digits. -/
def digitsToNat (l : List Char) : Nat :=
  l.foldl (fun acc c => acc * 10 + (c.toNat - 48)) 0

/-- Models `re.findall(r'\d+', s)[0]`: the first maximal run of decimal digits,
or `none` when the string has no digit (the `IndexError` case). -/
def firstDigitRun : List Char → Option (List Char)
  | [] => none
  | c :: rest =>
    if c.isDigit then some (c :: rest.takeWhile Char.isDigit)
    else firstDigitRun rest

/-- Models `int(re.findall(r'\d+', s)[0])`, `none` on parse failure. -/
def firstNumber (s : String) : Option Nat :=
  (firstDigitRun s.data).map digitsToNat

/-- The responses of the `budget_advice` entries carrying a given
condition, in table order. -/
def responsesFor (rules : Rules) (cond : String) : List String :=
  (rules.budget_advice.filter (fun r => r.condition == cond)).map (fun r => r.response)

/-- Budget branch of `_apply_rule_logic`: million label → `budget_high`;
else thousand label → `budget_low` below 500 and `budget_mid` otherwise,
with a silent skip when the value holds no digits; else nothing. -/
def budgetBranch (rules : Rules) (budget_value : String) : List String :=
  if containsSub "مليون".data budget_value.data then
    responsesFor rules "budget_high"
  else if containsSub "ألف".data budget_value.data then
    match firstNumber budget_value with
    | some numeric =>
      if numeric < 500 then responsesFor rules "budget_low"
      else responsesFor rules "budget_mid"
    | none => []
  else []

/-- Python `str.strip()`: drop leading and trailing whitespace. -/
def trimList (l : List Char) : List Char :=
  ((l.dropWhile Char.isWhitespace).reverse.dropWhile Char.isWhitespace).reverse

/-- Python `str.split(sep)` for a one-character separator. -/
def splitOnChar (sep : Char) : List Char → List (List Char)
  | [] => [[]]
  | c :: rest =>
    match splitOnChar sep rest with
    | [] => if c == sep then [[], []] else [[c]]
    | h :: t => if c == sep then [] :: h :: t else (c :: h) :: t

/-- The feature list of `_apply_rule_logic`: the supplied property's
`features` split on `'،'` and stripped, else `user_info["features"]`,
else empty. -/
def featureList (u : UserInfo) (property_data : Option PropRecord) : List String :=
  match property_data with
  | some p => (splitOnChar '،' p.features.data).map (fun l => String.mk (trimList l))
  | none => u.features.getD []

/-- Feature branch of `_apply_rule_logic`: for every feature tag, every
`property_priority` rule whose `feature` is a substring of the tag. -/
def featureBranch (rules : Rules) (features : List String) : List String :=
  features.flatMap (fun f =>
    (rules.property_priority.filter (fun rule => containsSub rule.feature.data f.data)).map
      (fun rule => rule.response))

/-- Models `_apply_rule_logic(user_info, property_data)`: budget advice, then
feature advice, concatenated in order. -/
def applyRuleLogic (rules : Rules) (u : UserInfo) (property_data : Option PropRecord) : List String :=
  budgetBranch rules (u.budget.getD "") ++ featureBranch rules (featureList u property_data)

/-- The slice of the retrieved knowledge structure read by the
renderers: `knowledge.get("phase_knowledge", {}).get("suggested_questions",
[])` and `knowledge.get("relevant_properties", [])`. -/
structure Knowledge where
  suggested_questions : List String
  relevant_properties : List PropRecord
deriving Repr

/-- Python truthiness of a dict lookup `user_info.get(key)`: the key is
present and its value is a non-empty string. -/
def truthy (v : Option String) : Bool :=
  match v with
  | some s => !s.data.isEmpty
  | none => false

/-- The `missing` list of `_discovery_response`: labels of the required
slots whose values are falsy, in the fixed location, budget,
property-type order. -/
def missingLabels (u : UserInfo) : List String :=
  (if truthy u.location then [] else ["المكان"]) ++
    (if truthy u.budget then [] else ["الميزانية"]) ++
      (if truthy u.property_type then [] else ["نوع العقار"])

/-- Models `_discovery_response(user_info, knowledge)`. -/
def discoveryResponse (u : UserInfo) (k : Knowledge) : String :=
  let missing := missingLabels u
  if missing.isEmpty then "تمام! كده أنا عرفت اللي محتاجه، نراجع المعلومات؟"
  else
    let extra :=
      match k.suggested_questions with
      | q :: _ => "\nمثلاً: " ++ q
      | [] => ""
    "ممكن تقولي " ++ String.intercalate ", " missing ++
      "؟ علشان أقدر أساعدك بشكل أفضل." ++ extra

/-- The `summary` list of `_summary_response`: one line per present slot
key among location, budget, property type, in that order. -/
def summaryLines (u : UserInfo) : List String :=
  (match u.location with
   | some v => ["📍 الموقع: " ++ v]
   | none => []) ++
    (match u.budget with
     | some v => ["💰 الميزانية: " ++ v]
     | none => []) ++
      (match u.property_type with
       | some v => ["🏠 النوع: " ++ v]
       | none => [])

/-- Models `_summary_response(user_info)`. -/
def summaryResponse (rules : Rules) (u : UserInfo) : String :=
  let advice := applyRuleLogic rules u none
  "دي المعلومات اللي جمعتها:\n" ++ String.intercalate "\n" (summaryLines u) ++
    (if advice.isEmpty then "" else "\n\n🧠 نصيحة:\n" ++ String.intercalate "\n" advice) ++
    "\nهل الكلام ده مظبوط؟"

/-- The state mutated by the SUGGESTION branch:
`self.selected_properties` and `self.last_mentioned_property`. -/
structure AgentState where
  selected_properties : List PropRecord
  last_mentioned_property : Option PropRecord
deriving Repr

/-- Rendering of a price cell in the suggestion line (pandas prints NaN
for a non-numeric cell). -/
def priceText : Option Int → String
  | some n => toString n
  | none => "nan"

/-- Models `_suggest_properties(user_info, knowledge)` together with its writes
to `self.selected_properties` and `self.last_mentioned_property`,
returned as an explicit state. -/
def suggestProperties (rules : Rules) (u : UserInfo) (k : Knowledge) (st : AgentState) :
    String × AgentState :=
  match k.relevant_properties with
  | [] => ("معرفتش ألاقي عقارات بالمواصفات دي، تحب نغيّر شوية في الطلب؟", st)
  | first :: restProps =>
    let props := first :: restProps
    let st2 : AgentState :=
      { selected_properties := props, last_mentioned_property := some first }
    let body := String.join (props.map (fun p =>
      "- " ++ p.type ++ " في " ++ p.location ++ " بـ " ++ priceText p.price ++ " جنيه\n"))
    let extra := applyRuleLogic rules u (some first)
    let notes :=
      if extra.isEmpty then ""
      else "\n🧠 ملاحظات:\n" ++ String.intercalate "\n" extra
    ("🏡 العقارات دي ممكن تعجبك:\n" ++ body ++ notes ++ "\nهل في واحد منهم شد انتباهك؟", st2)

/-- Python `int(str)`: optional sign then decimal digits, after the
implicit surrounding-whitespace strip that `int` performs; `none` on
any other shape (`ValueError`). -/
def pyInt (s : String) : Option Int :=
  match trimList s.data with
  | [] => none
  | '-' :: rest =>
    if !rest.isEmpty && rest.all Char.isDigit then some (-(digitsToNat rest : Int)) else none
  | '+' :: rest =>
    if !rest.isEmpty && rest.all Char.isDigit then some (digitsToNat rest : Int) else none
  | l =>
    if l.all Char.isDigit then some (digitsToNat l : Int) else none

/-- Models `str.contains(pat, case=False, na=False)` for a literal pattern:
case-insensitive substring containment. -/
def ciContains (field pat : String) : Bool :=
  containsSub (lowerString pat).data (lowerString field).data

/-- The budget filter value: `filters['budget']` may be a scalar or a
list, of which element 0 is taken. -/
inductive BudgetFilterVal where
  | scalar (s : String)
  | listVal (l : List String)
deriving DecidableEq, Repr

/-- Models `int(str(budget_value).replace(",", "").strip())` on the scalar or
first list element; `none` when parsing raises (including the
`IndexError` of `[][0]`), which disables the budget filter. -/
def parseBudgetFilter : BudgetFilterVal → Option Int
  | BudgetFilterVal.scalar s => pyInt (String.mk (s.data.filter (fun c => c != ',')))
  | BudgetFilterVal.listVal [] => none
  | BudgetFilterVal.listVal (s :: _) => pyInt (String.mk (s.data.filter (fun c => c != ',')))

/-- The filter dict passed to `search`: a field is `none` when the key
is absent. -/
structure Filters where
  location : Option String
  property_type : Option String
  budget : Option BudgetFilterVal
  bedrooms : Option String
deriving Repr

/-- Models `pd.to_numeric(price, errors='coerce') <= budget`: a non-numeric
price (NaN) never satisfies the comparison. -/
def priceSatisfies (p : PropRecord) (b : Int) : Bool :=
  match p.price with
  | some pr => decide (pr ≤ b)
  | none => false

/-- The `if 'location' in filters` block of `search`. -/
def locationStage (f : Filters) (l : List PropRecord) : List PropRecord :=
  match f.location with
  | some loc => l.filter (fun p => ciContains p.location loc)
  | none => l

/-- The `if 'property_type' in filters` block of `search`. -/
def typeStage (f : Filters) (l : List PropRecord) : List PropRecord :=
  match f.property_type with
  | some t => l.filter (fun p => ciContains p.type t)
  | none => l

/-- The `if 'budget' in filters` block of `search`; a parse failure on
the filter value leaves the rows untouched. -/
def budgetStage (f : Filters) (l : List PropRecord) : List PropRecord :=
  match f.budget with
  | some bv =>
    match parseBudgetFilter bv with
    | some b => l.filter (fun p => priceSatisfies p b)
    | none => l
  | none => l

/-- The `if 'bedrooms' in filters` block of `search`; exact equality on
the numeric `bedrooms` cell, parse failure skips the filter. -/
def bedroomsStage (f : Filters) (l : List PropRecord) : List PropRecord :=
  match f.bedrooms with
  | some bs =>
    match pyInt bs with
    | some n => l.filter (fun p => p.bedrooms == some n)
    | none => l
  | none => l

/-- Models `RealEstateListings.search(filters)`: empty catalog short-circuits
to `[]`; otherwise the four optional filters are applied in order and
the first 3 surviving rows are returned (`results.head(3)`). -/
def search (catalog : List PropRecord) (f : Filters) : List PropRecord :=
  if catalog.isEmpty then []
  else (bedroomsStage f (budgetStage f (typeStage f (locationStage f catalog)))).take 3

/-- The conjunction of the four optional filter conditions, the
per-record reading of the same blocks. -/
def matchesFilters (f : Filters) (p : PropRecord) : Bool :=
  (match f.location with
   | some loc => ciContains p.location loc
   | none => true) &&
  (match f.property_type with
   | some t => ciContains p.type t
   | none => true) &&
  (match f.budget with
   | some bv =>
     match parseBudgetFilter bv with
     | some b => priceSatisfies p b
     | none => true
   | none => true) &&
  (match f.bedrooms with
   | some bs =>
     match pyInt bs with
     | some n => p.bedrooms == some n
     | none => true
   | none => true)

/-- A slot store with all three required slots already set. -/
def fullInfo : UserInfo :=
  { location := some "المعادي", budget := some "700 ألف جنيه",
    property_type := some "شقة", refers_to := none, features := none }

/-- A slot store whose only set slot is a 300-thousand budget. -/
def info300 : UserInfo := { emptyInfo with budget := some "300 ألف جنيه" }

/-- A slot store whose only set slot is a 700-thousand budget. -/
def info700 : UserInfo := { emptyInfo with budget := some "700 ألف جنيه" }

/-- A slot store whose only set slot is a 3-million budget. -/
def infoM : UserInfo := { emptyInfo with budget := some "3 مليون جنيه" }

/-- A slot store carrying a thousand-label budget with no digits. -/
def infoNoDigits : UserInfo := { emptyInfo with budget := some "ألف جنيه" }

/-- A slot store where every required slot key is present but bound to
the empty string. -/
def falsyInfo : UserInfo :=
  { location := some "", budget := some "", property_type := some "",
    refers_to := none, features := none }

/-- A small rule table with one response per budget condition. -/
def demoRules : Rules :=
  { budget_advice :=
      [{ condition := "budget_high", response := "فكر في التقسيط" },
       { condition := "budget_mid", response := "في اختيارات كويسة في المدن الجديدة" },
       { condition := "budget_low", response := "ركز على الشقق الصغيرة" }],
    property_priority := [] }

/-- Catalog row number `n` of the 5-row example: all rows satisfy the
example filters. -/
def exProp (n : Nat) : PropRecord :=
  { type := "شقة", location := "المعادي", price := some (1000000 + n),
    bedrooms := some 3, features := "فيو جنينة، قريب من الخدمات" }

/-- A 5-row catalog whose rows all match `exFilters`. -/
def exCatalog : List PropRecord :=
  [exProp 1, exProp 2, exProp 3, exProp 4, exProp 5]

/-- Filters using all four keys, matched by every row of `exCatalog`. -/
def exFilters : Filters :=
  { location := some "المعادي", property_type := some "شقة",
    budget := some (BudgetFilterVal.scalar "2,000,000"), bedrooms := some "3" }

/-- Empty knowledge: no suggested questions, no matching properties. -/
def emptyKnowledge : Knowledge :=
  { suggested_questions := [], relevant_properties := [] }

/-- An agent state with a non-trivial selection, used to observe that
the no-match branch leaves the state untouched. -/
def demoState : AgentState :=
  { selected_properties := [exProp 4], last_mentioned_property := some (exProp 4) }

/-! ## Helper lemmas: each extraction step writes only its own slot,
and never overwrites it once set. -/

theorem extractLocation_budget (msg : String) (u : UserInfo) :
    (extractLocation msg u).budget = u.budget := by
  unfold extractLocation
  split
  · rfl
  · split <;> rfl

theorem extractLocation_property_type (msg : String) (u : UserInfo) :
    (extractLocation msg u).property_type = u.property_type := by
  unfold extractLocation
  split
  · rfl
  · split <;> rfl

theorem extractLocation_location_set (msg : String) (u : UserInfo) (v : String)
    (h : u.location = some v) : (extractLocation msg u).location = some v := by
  simp [extractLocation, h]

theorem extractBudget_location (msg : String) (u : UserInfo) :
    (extractBudget msg u).location = u.location := by
  unfold extractBudget
  split
  · split <;> rfl
  · rfl

theorem extractBudget_property_type (msg : String) (u : UserInfo) :
    (extractBudget msg u).property_type = u.property_type := by
  unfold extractBudget
  split
  · split <;> rfl
  · rfl

theorem extractBudget_budget_set (msg : String) (u : UserInfo) (v : String)
    (h : u.budget = some v) : (extractBudget msg u).budget = some v := by
  unfold extractBudget
  split
  · simp [h]
  · exact h

theorem extractPropertyType_location (msg : String) (u : UserInfo) :
    (extractPropertyType msg u).location = u.location := by
  unfold extractPropertyType
  split
  · rfl
  · split <;> rfl

theorem extractPropertyType_budget (msg : String) (u : UserInfo) :
    (extractPropertyType msg u).budget = u.budget := by
  unfold extractPropertyType
  split
  · rfl
  · split <;> rfl

theorem extractPropertyType_property_type_set (msg : String) (u : UserInfo) (v : String)
    (h : u.property_type = some v) : (extractPropertyType msg u).property_type = some v := by
  simp [extractPropertyType, h]

/-- C1: once a slot among {location, budget, property_type} has been set
in the slot store, no call to the Fact Extractor
(`_basic_info_extraction`) changes its value, whatever the next message
is (first-writer-wins). -/
theorem fact_extractor_first_writer_wins (msg : String) (u : UserInfo) :
    (∀ v, u.location = some v → (basicInfoExtraction msg u).location = some v) ∧
    (∀ v, u.budget = some v → (basicInfoExtraction msg u).budget = some v) ∧
    (∀ v, u.property_type = some v → (basicInfoExtraction msg u).property_type = some v) := by
  refine ⟨fun v h => ?_, fun v h => ?_, fun v h => ?_⟩
  · rw [basicInfoExtraction, extractPropertyType_location, extractBudget_location]
    exact extractLocation_location_set msg u v h
  · rw [basicInfoExtraction, extractPropertyType_budget]
    exact extractBudget_budget_set msg _ v ((extractLocation_budget msg u).trans h)
  · exact extractPropertyType_property_type_set msg _ v
      ((extractBudget_property_type msg _).trans
        ((extractLocation_property_type msg u).trans h))

/-- C1 witness: a store with all three slots set survives a message that
mentions a different location, budget and property type. -/
theorem fact_extractor_first_writer_wins_witness :
    (basicInfoExtraction "عايز فيلا في القاهرة ب 900 الف" fullInfo).location = some "المعادي" ∧
    (basicInfoExtraction "عايز فيلا في القاهرة ب 900 الف" fullInfo).budget = some "700 ألف جنيه" ∧
    (basicInfoExtraction "عايز فيلا في القاهرة ب 900 الف" fullInfo).property_type = some "شقة" :=
  ⟨(fact_extractor_first_writer_wins _ fullInfo).1 _ rfl,
   (fact_extractor_first_writer_wins _ fullInfo).2.1 _ rfl,
   (fact_extractor_first_writer_wins _ fullInfo).2.2 _ rfl⟩

/-- The location loop returns the first gazetteer entry, in list order,
occurring in the message: all earlier entries are absent from it. -/
theorem findLocation_first (L : List String) (msg : String) (l : String)
    (h : findLocation L msg = some l) :
    ∃ pre post, L = pre ++ l :: post ∧ containsSub l.data msg.data = true ∧
      ∀ x ∈ pre, containsSub x.data msg.data = false := by
  induction L with
  | nil => simp [findLocation] at h
  | cons a as ih =>
    rw [findLocation] at h
    cases hc : containsSub a.data msg.data
    · rw [hc] at h
      simp only [Bool.false_eq_true, if_false] at h
      obtain ⟨pre, post, hL, hcl, hpre⟩ := ih h
      refine ⟨a :: pre, post, by rw [hL, List.cons_append], hcl, ?_⟩
      intro x hx
      rcases List.mem_cons.mp hx with rfl | hx
      · exact hc
      · exact hpre x hx
    · rw [hc] at h
      simp only [if_true] at h
      obtain rfl : a = l := by injection h
      exact ⟨[], as, rfl, hc, by simp⟩

/-- The location loop finds an entry whenever some gazetteer entry
occurs in the message. -/
theorem findLocation_isSome_of_mem (L : List String) (msg : String) (l : String)
    (hmem : l ∈ L) (hc : containsSub l.data msg.data = true) :
    (findLocation L msg).isSome = true := by
  induction L with
  | nil => cases hmem
  | cons a as ih =>
    rw [findLocation]
    cases hca : containsSub a.data msg.data
    · simp only [Bool.false_eq_true, if_false]
      rcases List.mem_cons.mp hmem with rfl | h
      · rw [hca] at hc
        cases hc
      · exact ih h
    · simp

/-- C2: for every message containing two or more gazetteer area names,
when the location slot is unset the Fact Extractor sets `location` to
the matching area name occurring earliest in the fixed gazetteer list
(every gazetteer entry listed before it is absent from the message),
regardless of the names' positions in the message. -/
theorem fact_extractor_location_gazetteer_order (msg : String) (u : UserInfo)
    (hu : u.location = none) (l1 l2 : String) (h1 : l1 ∈ locations) (_h2 : l2 ∈ locations)
    (_hne : l1 ≠ l2) (hc1 : containsSub l1.data msg.data = true)
    (_hc2 : containsSub l2.data msg.data = true) :
    ∃ l pre post, (basicInfoExtraction msg u).location = some l ∧
      locations = pre ++ l :: post ∧ containsSub l.data msg.data = true ∧
      ∀ x ∈ pre, containsSub x.data msg.data = false := by
  obtain ⟨l, hl⟩ :=
    Option.isSome_iff_exists.mp (findLocation_isSome_of_mem locations msg l1 h1 hc1)
  obtain ⟨pre, post, hL, hcl, hpre⟩ := findLocation_first locations msg l hl
  refine ⟨l, pre, post, ?_, hL, hcl, hpre⟩
  rw [basicInfoExtraction, extractPropertyType_location, extractBudget_location]
  unfold extractLocation
  rw [hu]
  simp [hl]

/-- C2 witness: a message holding both "المعادي" and "القاهرة", the
latter earlier in the gazetteer. -/
theorem fact_extractor_location_gazetteer_order_witness :
    ∃ l pre post,
      (basicInfoExtraction "المعادي القاهرة" emptyInfo).location = some l ∧
      locations = pre ++ l :: post ∧
      containsSub l.data "المعادي القاهرة".data = true ∧
      ∀ x ∈ pre, containsSub x.data "المعادي القاهرة".data = false :=
  fact_extractor_location_gazetteer_order "المعادي القاهرة" emptyInfo rfl
    "القاهرة" "المعادي" (by decide) (by decide) (by decide) (by decide) (by decide)

/-- When the regex finds a match and the budget slot is unset, the slot
receives the normalized amount/label string. -/
theorem extractBudget_sets (msg : String) (u : UserInfo) (amount unit : List Char)
    (hu : u.budget = none) (hs : budgetSearch msg.data = some (amount, unit)) :
    (extractBudget msg u).budget = some (budgetValue amount unit) := by
  unfold extractBudget
  rw [hs]
  simp [hu]

/-- C3: with the budget slot unset, the message `"2,500 k"` stores
`"2500 ألف جنيه"` (separator stripped, unit `k` mapped to the thousand
label) and `"3 مليون"` stores `"3 مليون جنيه"`. -/
theorem fact_extractor_budget_normalization (u : UserInfo) (hu : u.budget = none) :
    (basicInfoExtraction "2,500 k" u).budget = some "2500 ألف جنيه" ∧
    (basicInfoExtraction "3 مليون" u).budget = some "3 مليون جنيه" := by
  constructor
  · rw [basicInfoExtraction, extractPropertyType_budget,
      extractBudget_sets "2,500 k" _ "2,500".data "k".data
        ((extractLocation_budget "2,500 k" u).trans hu) (by decide)]
    decide
  · rw [basicInfoExtraction, extractPropertyType_budget,
      extractBudget_sets "3 مليون" _ "3".data "مليون".data
        ((extractLocation_budget "3 مليون" u).trans hu) (by decide)]
    decide

/-- C3 witness: the two messages against a fresh slot store. -/
theorem fact_extractor_budget_normalization_witness :
    (basicInfoExtraction "2,500 k" emptyInfo).budget = some "2500 ألف جنيه" ∧
    (basicInfoExtraction "3 مليون" emptyInfo).budget = some "3 مليون جنيه" :=
  fact_extractor_budget_normalization emptyInfo rfl

/-- C4 counterexample: the claim predicts that `"2500k"` (no whitespace
between digits and unit) leaves the budget slot unset; the code's
pattern uses `\s*` and does set it. -/
theorem fact_extractor_budget_adjacent_unit_counterexample :
    (basicInfoExtraction "2500k" emptyInfo).budget ≠ none := by decide

/-- C4 amended: the budget pattern allows zero or more whitespace
characters between the digit string and the unit token, so a message
whose digits are directly adjacent to the unit token (e.g. `"2500k"`)
does set the budget slot, to `"2500 ألف جنيه"`. -/
theorem fact_extractor_budget_adjacent_unit (u : UserInfo) (hu : u.budget = none) :
    (basicInfoExtraction "2500k" u).budget = some "2500 ألف جنيه" := by
  rw [basicInfoExtraction, extractPropertyType_budget,
    extractBudget_sets "2500k" _ "2500".data "k".data
      ((extractLocation_budget "2500k" u).trans hu) (by decide)]
  decide

/-- C4 witness: the adjacent-unit message against a fresh slot store. -/
theorem fact_extractor_budget_adjacent_unit_witness :
    (basicInfoExtraction "2500k" emptyInfo).budget = some "2500 ألف جنيه" :=
  fact_extractor_budget_adjacent_unit emptyInfo rfl

/-- With no property argument and no `features` slot, `_apply_rule_logic`
reduces to its budget branch. -/
theorem applyRuleLogic_eq_budgetBranch (rules : Rules) (u : UserInfo) (b : String)
    (hb : u.budget = some b) (hf : u.features = none) :
    applyRuleLogic rules u none = budgetBranch rules b := by
  simp [applyRuleLogic, featureList, featureBranch, hb, hf]

/-- C5: the Rule Engine budget branch of `_apply_rule_logic` emits
exactly the `budget_high` responses when the budget holds the
million-currency label; with the thousand-currency label instead it
emits exactly the `budget_low` responses when the leading integer is
below 500 and exactly the `budget_mid` responses otherwise; and with
the thousand label but no digits it emits nothing (and, being a total
function, raises nothing). -/
theorem rule_engine_budget_branch (rules : Rules) (u : UserInfo) (b : String)
    (hb : u.budget = some b) (hf : u.features = none) :
    (containsSub "مليون".data b.data = true →
      applyRuleLogic rules u none = responsesFor rules "budget_high") ∧
    (containsSub "مليون".data b.data = false →
      containsSub "ألف".data b.data = true →
      (∀ numeric, firstNumber b = some numeric →
        applyRuleLogic rules u none =
          responsesFor rules (if numeric < 500 then "budget_low" else "budget_mid")) ∧
      (firstNumber b = none → applyRuleLogic rules u none = [])) := by
  rw [applyRuleLogic_eq_budgetBranch rules u b hb hf]
  refine ⟨fun hm => ?_, fun hm hth => ⟨fun numeric hn => ?_, fun hn => ?_⟩⟩
  · simp [budgetBranch, hm]
  · by_cases hlt : numeric < 500 <;> simp [budgetBranch, hm, hth, hn, hlt]
  · simp [budgetBranch, hm, hth, hn]

/-- C5 witness: the three budget levels and the digit-free value,
against a rule table with one response per condition. -/
theorem rule_engine_budget_branch_witness :
    applyRuleLogic demoRules infoM none = ["فكر في التقسيط"] ∧
    applyRuleLogic demoRules info300 none = ["ركز على الشقق الصغيرة"] ∧
    applyRuleLogic demoRules info700 none = ["في اختيارات كويسة في المدن الجديدة"] ∧
    applyRuleLogic demoRules infoNoDigits none = [] := by
  refine ⟨?_, ?_, ?_, ?_⟩
  · exact ((rule_engine_budget_branch demoRules infoM _ rfl rfl).1 (by decide)).trans
      (by decide)
  · exact (((rule_engine_budget_branch demoRules info300 _ rfl rfl).2 (by decide)
      (by decide)).1 300 (by decide)).trans (by decide)
  · exact (((rule_engine_budget_branch demoRules info700 _ rfl rfl).2 (by decide)
      (by decide)).1 700 (by decide)).trans (by decide)
  · exact ((rule_engine_budget_branch demoRules infoNoDigits _ rfl rfl).2 (by decide)
      (by decide)).2 (by decide)

/-- Four stacked filters collapse to one conjunctive filter. -/
theorem filter_pipeline {α : Type} (l : List α) (a b c d : α → Bool) :
    (((l.filter a).filter b).filter c).filter d =
      l.filter (fun x => a x && b x && c x && d x) := by
  induction l with
  | nil => rfl
  | cons x xs ih =>
    cases ha : a x <;> cases hb : b x <;> cases hc : c x <;> cases hd : d x <;>
      simp only [List.filter_cons, ha, hb, hc, hd, Bool.false_eq_true, Bool.true_and,
        Bool.false_and, Bool.and_true, Bool.and_false, if_true, if_false, ih]

theorem locationStage_eq (f : Filters) (l : List PropRecord) :
    locationStage f l = l.filter (fun p =>
      match f.location with
      | some loc => ciContains p.location loc
      | none => true) := by
  cases h : f.location <;> simp [locationStage, h]

theorem typeStage_eq (f : Filters) (l : List PropRecord) :
    typeStage f l = l.filter (fun p =>
      match f.property_type with
      | some t => ciContains p.type t
      | none => true) := by
  cases h : f.property_type <;> simp [typeStage, h]

theorem budgetStage_eq (f : Filters) (l : List PropRecord) :
    budgetStage f l = l.filter (fun p =>
      match f.budget with
      | some bv =>
        match parseBudgetFilter bv with
        | some b => priceSatisfies p b
        | none => true
      | none => true) := by
  cases h : f.budget with
  | none => simp [budgetStage, h]
  | some bv => cases h2 : parseBudgetFilter bv <;> simp [budgetStage, h, h2]

theorem bedroomsStage_eq (f : Filters) (l : List PropRecord) :
    bedroomsStage f l = l.filter (fun p =>
      match f.bedrooms with
      | some bs =>
        match pyInt bs with
        | some n => p.bedrooms == some n
        | none => true
      | none => true) := by
  cases h : f.bedrooms with
  | none => simp [bedroomsStage, h]
  | some bs => cases h2 : pyInt bs <;> simp [bedroomsStage, h, h2]

/-- Lemma: `search` is the conjunctive filter followed by `head(3)`. -/
theorem search_eq_filter_take (catalog : List PropRecord) (f : Filters) :
    search catalog f = (catalog.filter (matchesFilters f)).take 3 := by
  unfold search
  split
  · rename_i h
    rw [List.isEmpty_iff.mp h]
    rfl
  · rw [locationStage_eq, typeStage_eq, budgetStage_eq, bedroomsStage_eq, filter_pipeline]
    rfl

/-- C6: for every catalog and filter set, `search` returns at most 3
records, namely the first rows of the catalog, in original order with
no re-scoring, that satisfy all supplied filters conjunctively; a 5-row
catalog whose rows all match yields exactly the first 3 rows in order. -/
theorem catalog_matcher_search_spec (catalog : List PropRecord) (f : Filters) :
    (search catalog f).length ≤ 3 ∧
    search catalog f = (catalog.filter (matchesFilters f)).take 3 ∧
    search exCatalog exFilters = [exProp 1, exProp 2, exProp 3] := by
  refine ⟨?_, search_eq_filter_take catalog f, by decide⟩
  rw [search_eq_filter_take]
  exact List.length_take_le 3 _

/-- C7: on an empty catalog, `search` returns the empty sequence for
every filter set, and (being total) raises nothing. -/
theorem catalog_matcher_empty_catalog (f : Filters) : search [] f = [] := rfl

/-- C8: in the SUGGESTION phase, when the supplied knowledge contains no
matching properties, the dispatcher returns the fixed "no match, want to
adjust?" message and leaves both `selected_properties` and
`last_mentioned_property` unchanged. -/
theorem suggestion_no_match_frame (rules : Rules) (u : UserInfo) (k : Knowledge)
    (st : AgentState) (h : k.relevant_properties = []) :
    suggestProperties rules u k st =
      ("معرفتش ألاقي عقارات بالمواصفات دي، تحب نغيّر شوية في الطلب؟", st) := by
  unfold suggestProperties
  rw [h]

/-- C8 witness: empty knowledge against a state already holding a
selection. -/
theorem suggestion_no_match_frame_witness :
    suggestProperties demoRules fullInfo emptyKnowledge demoState =
      ("معرفتش ألاقي عقارات بالمواصفات دي، تحب نغيّر شوية في الطلب؟", demoState) :=
  suggestion_no_match_frame demoRules fullInfo emptyKnowledge demoState rfl

/-- C9: whenever the Reference Resolver reports a match, `refers_to` is
set to the last-mentioned property when one exists and to the explicit
"unresolved" sentinel otherwise; it is never left absent after a match. -/
theorem reference_resolver_sets_refers_to (msg : String) (last : Option PropRecord)
    (u : UserInfo) (h : isReferenceToPrevious msg = true) :
    (applyReference msg last u).refers_to = some (resolveReference last) ∧
    (∀ p, last = some p → resolveReference last = RefersTo.prop p) ∧
    (last = none → resolveReference last = RefersTo.unresolved) ∧
    (applyReference msg last u).refers_to ≠ none := by
  refine ⟨?_, ?_, ?_, ?_⟩
  · simp [applyReference, h]
  · intro p hp
    simp [resolveReference, hp]
  · intro hp
    simp [resolveReference, hp]
  · simp [applyReference, h]

/-- C9 witness: the vague complaint "هي مش عاجباني" with no property
shown yet binds `refers_to` to the unresolved sentinel. -/
theorem reference_resolver_sets_refers_to_witness :
    (applyReference "هي مش عاجباني" none emptyInfo).refers_to =
      some RefersTo.unresolved ∧
    (applyReference "هي مش عاجباني" none emptyInfo).refers_to ≠ none := by
  have h := reference_resolver_sets_refers_to "هي مش عاجباني" none emptyInfo (by decide)
  exact ⟨by rw [h.1, h.2.2.1 rfl], h.2.2.2⟩

/-- C10: a slot key present but bound to the empty string is counted as
missing by the DISCOVERY renderer (truthiness test) yet still rendered
as a summary line by the SUMMARY renderer (key-presence test), for each
of location, budget and property type. -/
theorem falsy_slot_discovery_summary_divergence (u : UserInfo) :
    (u.location = some "" →
      "المكان" ∈ missingLabels u ∧ ("📍 الموقع: " ++ "") ∈ summaryLines u) ∧
    (u.budget = some "" →
      "الميزانية" ∈ missingLabels u ∧ ("💰 الميزانية: " ++ "") ∈ summaryLines u) ∧
    (u.property_type = some "" →
      "نوع العقار" ∈ missingLabels u ∧ ("🏠 النوع: " ++ "") ∈ summaryLines u) := by
  refine ⟨fun h => ⟨?_, ?_⟩, fun h => ⟨?_, ?_⟩, fun h => ⟨?_, ?_⟩⟩ <;>
    simp [missingLabels, summaryLines, truthy, h]

/-- C10 witness: the all-empty-string slot store is simultaneously
prompted for every slot in DISCOVERY and rendered with every line in
SUMMARY. -/
theorem falsy_slot_discovery_summary_divergence_witness :
    ("المكان" ∈ missingLabels falsyInfo ∧
      ("📍 الموقع: " ++ "") ∈ summaryLines falsyInfo) ∧
    ("الميزانية" ∈ missingLabels falsyInfo ∧
      ("💰 الميزانية: " ++ "") ∈ summaryLines falsyInfo) ∧
    ("نوع العقار" ∈ missingLabels falsyInfo ∧
      ("🏠 النوع: " ++ "") ∈ summaryLines falsyInfo) :=
  ⟨(falsy_slot_discovery_summary_divergence falsyInfo).1 rfl,
   (falsy_slot_discovery_summary_divergence falsyInfo).2.1 rfl,
   (falsy_slot_discovery_summary_divergence falsyInfo).2.2 rfl⟩

end RealEstate
